import Mathlib

/-!
Verification development for the PythonSocks tutorial chat server
(`session_manager.py`, `server2.py`, `db.py`).

Python dictionaries and SQL tables are embedded as association lists with
insert-or-replace / first-match-lookup semantics; wall-clock times
(`time.time()`) are embedded as integers, socket handles as naturals, and
UUID generation is parametrised by an explicitly supplied fresh string.
Send results of the transport are parametrised by a boolean-valued
function on socket handles.
-/

/-- First-match lookup in an association list (Python `dict.get`). -/
def alookup {α β : Type} [DecidableEq α] : List (α × β) → α → Option β
  | [], _ => none
  | (k', v) :: rest, k => if k' = k then some v else alookup rest k

/-- Insert-or-replace in an association list (Python `d[k] = v`). -/
def ainsert {α β : Type} [DecidableEq α] : List (α × β) → α → β → List (α × β)
  | [], k, v => [(k, v)]
  | (k', v') :: rest, k, v =>
      if k' = k then (k, v) :: rest else (k', v') :: ainsert rest k v

/-- Remove the first binding of a key (Python `del d[k]` / `d.pop(k)`). -/
def aerase {α β : Type} [DecidableEq α] : List (α × β) → α → List (α × β)
  | [], _ => []
  | (k', v') :: rest, k => if k' = k then rest else (k', v') :: aerase rest k

/-- Update every binding of a key in place (SQL `UPDATE ... WHERE key = k`). -/
def aupdate {α β : Type} [DecidableEq α] : List (α × β) → α → (β → β) → List (α × β)
  | [], _, _ => []
  | (k', v') :: rest, k, f =>
      if k' = k then (k', f v') :: aupdate rest k f else (k', v') :: aupdate rest k f

/-! ## Session registry (`session_manager.py`) -/

/-- A session record as built by `SessionManager.create_session`
(`login_time` is irrelevant to the claims and omitted; the nullable
socket is an `Option`). -/
structure Session where
  session_id : String
  user_id : String
  role : String
  name : String
  is_active : Bool
  socket : Option Nat
deriving DecidableEq, Repr

/-- State of `SessionManager`: `active_sessions` is keyed by `user_id`,
`session_lookup` maps session_id to user_id, `socket_to_session` maps a
socket handle to a session_id. -/
structure SessionManager where
  active_sessions : List (String × Session)
  session_lookup : List (String × String)
  socket_to_session : List (Nat × String)
deriving DecidableEq, Repr

/-- The empty `SessionManager.__init__` state. -/
def SessionManager.empty : SessionManager :=
  { active_sessions := [], session_lookup := [], socket_to_session := [] }

/-- `SessionManager.create_session`, with the freshly drawn
`str(uuid.uuid4())` passed in as `session_id`.  Note: it never fails and
never checks for an existing session of `user_id`. -/
def create_session (m : SessionManager) (user_id role name : String)
    (socket : Option Nat) (session_id : String) : SessionManager × Session :=
  let session : Session :=
    { session_id := session_id, user_id := user_id, role := role, name := name,
      is_active := true, socket := socket }
  let m' : SessionManager :=
    { active_sessions := ainsert m.active_sessions user_id session,
      session_lookup := ainsert m.session_lookup session_id user_id,
      socket_to_session :=
        match socket with
        | some s => ainsert m.socket_to_session s session_id
        | none => m.socket_to_session }
  (m', session)

/-- `SessionManager.user_has_active_session`: linear scan over the
values of `active_sessions`. -/
def user_has_active_session (m : SessionManager) (user_id : String) : Bool :=
  m.active_sessions.any (fun p => p.2.user_id = user_id)

/-- `SessionManager.get_session_by_id`. -/
def get_session_by_id (m : SessionManager) (session_id : String) : Option Session :=
  match alookup m.session_lookup session_id with
  | some user_id => alookup m.active_sessions user_id
  | none => none

/-- `SessionManager.end_session`. -/
def end_session (m : SessionManager) (session_id : String) : SessionManager × Bool :=
  match alookup m.session_lookup session_id with
  | some user_id =>
      let m1 :=
        match alookup m.active_sessions user_id with
        | some session =>
            let m0 :=
              match session.socket with
              | some s => { m with socket_to_session := aerase m.socket_to_session s }
              | none => m
            { m0 with active_sessions := aerase m0.active_sessions user_id }
        | none => m
      ({ m1 with session_lookup := aerase m1.session_lookup session_id }, true)
  | none => (m, false)

/-- The credential-login path of `TutorialServer._handle_credential_auth`
after the user has been found and the password verified: reject when the
user already has an active session, otherwise create a session and reply
with the success line. -/
def credential_auth (m : SessionManager) (user_id role name profile_pic : String)
    (sock : Nat) (fresh_sid : String) : SessionManager × String :=
  if user_has_active_session m user_id then
    (m, "FAIL:Already logged in")
  else
    let (m', s) := create_session m user_id role name (some sock) fresh_sid
    (m', "SUCCESS|" ++ role ++ "|" ++ name ++ "|" ++ s.session_id ++ "|" ++ profile_pic)

/-! ## Room directory (`server2.py`, class `ChatRoomManager`) -/

/-- Per-user socket slots of a room entry
(`{"primary": socket, "chat": socket}`). -/
structure UserSockets where
  primary : Option Nat
  chat : Option Nat
deriving DecidableEq, Repr

/-- One room: `{"users": {...}, "messages": [...]}`. -/
structure Room where
  users : List (String × UserSockets)
  messages : List String
deriving DecidableEq, Repr

/-- `ChatRoomManager.rooms`: tutorial_id keyed map of rooms. -/
abbrev Rooms := List (String × Room)

/-- A fresh empty room, as lazily created by `add_socket`. -/
def Room.empty : Room := { users := [], messages := [] }

/-- `ChatRoomManager.add_socket`: lazily creates room and user entry,
then replaces the targeted slot (the close of a previously held socket
is an external side effect and does not change the room state). -/
def add_socket (rooms : Rooms) (tutorial_id user_id : String) (socket : Nat)
    (is_chat_socket : Bool) : Rooms :=
  let room := (alookup rooms tutorial_id).getD Room.empty
  let entry := (alookup room.users user_id).getD { primary := none, chat := none }
  let entry' :=
    if is_chat_socket then { entry with chat := some socket }
    else { entry with primary := some socket }
  ainsert rooms tutorial_id { room with users := ainsert room.users user_id entry' }

/-- `ChatRoomManager.remove_dead_socket`: nulls every slot holding the
dead socket; the user entries themselves are kept. -/
def remove_dead_socket (rooms : Rooms) (tutorial_id : String) (dead_socket : Nat) :
    Rooms :=
  match alookup rooms tutorial_id with
  | none => rooms
  | some room =>
      let users' := room.users.map (fun p =>
        let s1 := if p.2.primary = some dead_socket then { p.2 with primary := none } else p.2
        let s2 := if s1.chat = some dead_socket then { s1 with chat := none } else s1
        (p.1, s2))
      ainsert rooms tutorial_id { room with users := users' }

/-- `ChatRoomManager.get_primary_sockets`. -/
def get_primary_sockets (rooms : Rooms) (tutorial_id : String)
    (exclude_user_id : Option String) : List Nat :=
  match alookup rooms tutorial_id with
  | none => []
  | some room =>
      room.users.foldr (fun p acc =>
        if exclude_user_id = some p.1 then acc
        else match p.2.primary with
          | some s => s :: acc
          | none => acc) []

/-- `ChatRoomManager.get_chat_sockets`. -/
def get_chat_sockets (rooms : Rooms) (tutorial_id : String)
    (exclude_user_id : Option String) : List Nat :=
  match alookup rooms tutorial_id with
  | none => []
  | some room =>
      room.users.foldr (fun p acc =>
        if exclude_user_id = some p.1 then acc
        else match p.2.chat with
          | some s => s :: acc
          | none => acc) []

/-- `ChatRoomManager.remove_user`. -/
def remove_user (rooms : Rooms) (tutorial_id user_id : String) : Rooms × Bool :=
  match alookup rooms tutorial_id with
  | none => (rooms, false)
  | some room =>
      if (alookup room.users user_id).isSome then
        (ainsert rooms tutorial_id { room with users := aerase room.users user_id }, true)
      else (rooms, false)

/-- `ChatRoomManager.close_room` (socket closing is an external side
effect; the room is deleted). -/
def close_room (rooms : Rooms) (tutorial_id : String) : Rooms × Bool :=
  if (alookup rooms tutorial_id).isSome then (aerase rooms tutorial_id, true)
  else (rooms, false)

/-- `ChatRoomManager.is_active`: the room exists and has at least one
user entry. -/
def is_active (rooms : Rooms) (tutorial_id : String) : Bool :=
  match alookup rooms tutorial_id with
  | none => false
  | some room => room.users.length > 0

/-! ## Chat-message broadcast (`TutorialServer._broadcast_chat_message`)

The send loop is embedded as an event log: `Ev.send slotChat sock ok`
records one `send_data` attempt (`slotChat = true` for the chat-socket
phase) and `Ev.detach sock` records a `remove_dead_socket` call.  A
failed `send_data` status and a raised exception both take the same
failure path in the chat phase, so both are modelled by
`sendOk sock = false`. -/
inductive Ev where
  | send (slotChat : Bool) (sock : Nat) (ok : Bool)
  | detach (sock : Nat)
deriving DecidableEq, Repr

/-- The chat-socket phase of `_broadcast_chat_message`: iterate over the
snapshot of chat sockets, counting successes and detaching a socket from
the room on a failed send.  Returns (rooms, log, successful_sends). -/
def chatPhase (rooms : Rooms) (tutorial_id : String) (sendOk : Nat → Bool) :
    List Nat → Rooms × List Ev × Nat
  | [] => (rooms, [], 0)
  | s :: rest =>
      if sendOk s then
        let p := chatPhase rooms tutorial_id sendOk rest
        (p.1, Ev.send true s true :: p.2.1, p.2.2 + 1)
      else
        let p := chatPhase (remove_dead_socket rooms tutorial_id s) tutorial_id sendOk rest
        (p.1, Ev.send true s false :: Ev.detach s :: p.2.1, p.2.2)

/-- `TutorialServer._broadcast_chat_message` (delivery core): chat
sockets first; if zero chat-socket sends succeeded, retry on primary
sockets (without detaching failures there); return value is
`successful_sends > 0`. -/
def broadcast_chat_message (rooms : Rooms) (tutorial_id sender_id : String)
    (sendOk : Nat → Bool) : Rooms × List Ev × Bool :=
  let p := chatPhase rooms tutorial_id sendOk
    (get_chat_sockets rooms tutorial_id (some sender_id))
  if p.2.2 = 0 then
    let primary_sockets := get_primary_sockets p.1 tutorial_id (some sender_id)
    (p.1, p.2.1 ++ primary_sockets.map (fun s => Ev.send false s (sendOk s)),
     decide (0 < p.2.2 + primary_sockets.countP (fun s => sendOk s)))
  else (p.1, p.2.1, true)

/-- Sockets attempted in a given phase of the log. -/
def attemptsOn (slotChat : Bool) (log : List Ev) : List Nat :=
  log.filterMap (fun e =>
    match e with
    | Ev.send b s _ => if b = slotChat then some s else none
    | Ev.detach _ => none)

/-- Sockets to which a send succeeded (either phase). -/
def deliveredSockets (log : List Ev) : List Nat :=
  log.filterMap (fun e =>
    match e with
    | Ev.send _ s true => some s
    | _ => none)

/-- Sockets passed to `remove_dead_socket` in the log. -/
def detachedSockets (log : List Ev) : List Nat :=
  log.filterMap (fun e =>
    match e with
    | Ev.detach s => some s
    | _ => none)

/-- How many copies of the broadcast a user holding the given slots
received: one per successful send to one of their sockets. -/
def copiesReceived (log : List Ev) (u : UserSockets) : Nat :=
  (deliveredSockets log).countP (fun s => u.primary = some s ∨ u.chat = some s)

/-! ## Persistence collaborator (`db.py`)

SQL tables are embedded as association lists; `active_chats` is keyed by
`tutorial_id`, `attendance` by `(chat_session_id, student_id)`.
`time.time()` values are integers supplied by the caller; the truncation
`int(current_time - last_seen_time)` is integer subtraction. -/

/-- One row of `active_chats`. -/
structure ActiveChat where
  tutor_id : String
  start_time : Int
  end_time : Int
  chat_session_id : String
deriving DecidableEq, Repr

/-- One row of `attendance` (the key columns `chat_session_id` and
`student_id` live in the association-list key). -/
structure AttendanceRec where
  tutorial_id : String
  first_join_time : Int
  last_seen_time : Int
  total_duration_seconds : Int
  is_present : Bool
deriving DecidableEq, Repr

/-- Database state: the tables the claims touch.  `assignments` holds
(user_id, tutorial_id) rows and `user_roles` maps user_id to role, to
embed the students-of-a-tutorial join. -/
structure DB where
  active_chats : List (String × ActiveChat)
  attendance : List ((String × String) × AttendanceRec)
  assignments : List (String × String)
  user_roles : List (String × String)
deriving DecidableEq, Repr

/-- `db.get_active_chat`. -/
def get_active_chat (db : DB) (tutorial_id : String) : Option ActiveChat :=
  alookup db.active_chats tutorial_id

/-- `db.start_chat`, with `now` standing for `time.time()` and
`fresh_sid` for `str(uuid.uuid4())`.  Returns the new database plus the
chat session id, or `none` when a chat is already active. -/
def start_chat (db : DB) (tutorial_id tutor_id : String) (duration : Int)
    (now : Int) (fresh_sid : String) : DB × Option String :=
  if (get_active_chat db tutorial_id).isSome then (db, none)
  else
    let chat : ActiveChat :=
      { tutor_id := tutor_id, start_time := now, end_time := now + duration * 60,
        chat_session_id := fresh_sid }
    ({ db with active_chats := ainsert db.active_chats tutorial_id chat }, some fresh_sid)

/-- `db.end_chat`: delete the tutorial's `active_chats` row. -/
def end_chat (db : DB) (tutorial_id : String) : DB :=
  { db with active_chats := aerase db.active_chats tutorial_id }

/-- The `users ⋈ assignments` query of
`db.initialize_attendance_for_session`: students assigned to the
tutorial. -/
def students_in_tutorial (db : DB) (tutorial_id : String) : List String :=
  db.assignments.filterMap (fun a =>
    if a.2 = tutorial_id ∧ alookup db.user_roles a.1 = some "student" then some a.1
    else none)

/-- `db.initialize_attendance_for_session`: insert an absent row with
zero times for every enrolled student (`total_duration_seconds` takes
its schema default 0). -/
def initialize_attendance_for_session (db : DB) (chat_session_id tutorial_id : String) :
    DB :=
  { db with attendance := db.attendance ++
      (students_in_tutorial db tutorial_id).map (fun s =>
        ((chat_session_id, s),
         { tutorial_id := tutorial_id, first_join_time := 0, last_seen_time := 0,
           total_duration_seconds := 0, is_present := false })) }

/-- `db.mark_student_present` at wall-clock time `now`. -/
def mark_student_present (db : DB) (chat_session_id tutorial_id student_id : String)
    (now : Int) : DB :=
  match alookup db.attendance (chat_session_id, student_id) with
  | some r =>
      if ¬ r.is_present then
        let att1 := aupdate db.attendance (chat_session_id, student_id)
          (fun a => { a with is_present := true, last_seen_time := now })
        let db1 := { db with attendance := att1 }
        if r.first_join_time = 0 then
          let att2 := aupdate db1.attendance (chat_session_id, student_id)
            (fun a => { a with first_join_time := now })
          { db1 with attendance := att2 }
        else db1
      else db
  | none =>
      { db with attendance := db.attendance ++
          [((chat_session_id, student_id),
            { tutorial_id := tutorial_id, first_join_time := now,
              last_seen_time := now, total_duration_seconds := 0,
              is_present := true })] }

/-- `db.disconnect_attendance` at wall-clock time `now`: the row is
selected only when `is_present`, the elapsed time since `last_seen_time`
is added to `total_duration_seconds`. -/
def disconnect_attendance (db : DB) (chat_session_id student_id : String)
    (now : Int) : DB :=
  match alookup db.attendance (chat_session_id, student_id) with
  | some r =>
      if r.is_present then
        let att1 := aupdate db.attendance (chat_session_id, student_id)
          (fun a =>
            { a with
              is_present := false,
              total_duration_seconds := a.total_duration_seconds + (now - a.last_seen_time),
              last_seen_time := now })
        { db with attendance := att1 }
      else db
  | none => db

/-! ## `TutorialServer._handle_start_chat` -/

/-- Combined server state the START_CHAT handler touches. -/
structure ServerState where
  db : DB
  rooms : Rooms
deriving DecidableEq, Repr

/-- `TutorialServer._handle_start_chat` after argument parsing: on
success attaches the tutor's primary socket, initialises attendance,
starts the timer thread (reported as the returned flag) and replies
`CHAT_STARTED:<id>`; otherwise replies `FAIL:Chat session already
active`.  Result: (state, reply, timer_started). -/
def handle_start_chat (st : ServerState) (tutorial_id tutor_id : String)
    (duration : Int) (now : Int) (fresh_sid : String) (client_socket : Nat) :
    ServerState × String × Bool :=
  let (db', res) := start_chat st.db tutorial_id tutor_id duration now fresh_sid
  match res with
  | some chat_session_id =>
      let rooms' := add_socket st.rooms tutorial_id tutor_id client_socket false
      let db'' := initialize_attendance_for_session db' chat_session_id tutorial_id
      ({ db := db'', rooms := rooms' }, "CHAT_STARTED:" ++ chat_session_id, true)
  | none => ({ st with db := db' }, "FAIL:Chat session already active", false)

/-! ## Presence/attendance transition traces

A join corresponds to the server calling `mark_student_present` (from
`_handle_join_chat`) and a leave to `disconnect_attendance` (from
`_handle_disconnect_message`), each stamped with the wall-clock time of
the call. -/

/-- One join/leave transition for a fixed (chat_session_id, student_id). -/
inductive AttEv where
  | join (tutorial_id : String) (now : Int)
  | leave (now : Int)
deriving DecidableEq, Repr

/-- Wall-clock time of a transition. -/
def AttEv.time : AttEv → Int
  | .join _ now => now
  | .leave now => now

/-- Apply one transition to the database. -/
def attStep (db : DB) (chat_session_id student_id : String) : AttEv → DB
  | .join tutorial_id now =>
      mark_student_present db chat_session_id tutorial_id student_id now
  | .leave now => disconnect_attendance db chat_session_id student_id now

/-- Apply a sequence of transitions. -/
def attRun (db : DB) (chat_session_id student_id : String) : List AttEv → DB
  | [] => db
  | ev :: rest => attRun (attStep db chat_session_id student_id ev)
      chat_session_id student_id rest

/-- The accumulated duration stored for a pair (0 when no row exists). -/
def storedDuration (db : DB) (chat_session_id student_id : String) : Int :=
  match alookup db.attendance (chat_session_id, student_id) with
  | some r => r.total_duration_seconds
  | none => 0

/-- Precondition of a transition: the wall clock is no earlier than the
stored `last_seen_time` of the pair's row, when a row exists. -/
def attPre (db : DB) (chat_session_id student_id : String) (ev : AttEv) : Bool :=
  match alookup db.attendance (chat_session_id, student_id) with
  | some r => decide (r.last_seen_time ≤ ev.time)
  | none => true

/-- A trace whose every transition satisfies `attPre` in the state it is
applied to. -/
def validTrace (db : DB) (chat_session_id student_id : String) : List AttEv → Bool
  | [] => true
  | ev :: rest => attPre db chat_session_id student_id ev &&
      validTrace (attStep db chat_session_id student_id ev) chat_session_id student_id rest

/-! ## Session timer (`TutorialServer._chat_session_timer`)

The sleeps are temporal and not statable directly; the timer's behaviour
is fully determined by the `get_active_chat` results at its two possible
wake points, which are passed in as `active_at_warning` (the check after
the `duration - 5` sleep) and `active_at_end` (the check before ending).
The emitted actions are logged in order. -/

/-- Observable timer actions: the WARNING broadcast, the `end_chat`
database deletion, the CHAT_ENDED broadcast, and `close_room`. -/
inductive TimerAct where
  | warnBroadcast
  | endChatDb
  | chatEndedBroadcast
  | closeRoomAct
deriving DecidableEq, Repr

/-- `TutorialServer._chat_session_timer` for a `duration`-minute chat:
the list of actions it performs given the activity of the chat at each
wake point. -/
def chat_session_timer (duration : Int) (active_at_warning active_at_end : Bool) :
    List TimerAct :=
  if duration - 5 > 0 then
    if active_at_warning then
      if active_at_end then
        [TimerAct.warnBroadcast, TimerAct.endChatDb,
         TimerAct.chatEndedBroadcast, TimerAct.closeRoomAct]
      else [TimerAct.warnBroadcast]
    else []
  else
    if active_at_end then
      [TimerAct.endChatDb, TimerAct.chatEndedBroadcast, TimerAct.closeRoomAct]
    else []

/-! ## Command dispatcher (`TutorialServer.handle_tutor` loop)

One loop iteration is embedded as a step on the received transport
result.  Handler bodies are abstracted to whether the chosen handler
raised an exception (`handler_exc = some detail`); their replies and
state effects are outside this claim's scope. -/

/-- Split a character list at every occurrence of `c`
(the behaviour of Python `str.split(c)` on each character). -/
def splitOnChar (c : Char) : List Char → List (List Char)
  | [] => [[]]
  | x :: xs =>
      if x = c then [] :: splitOnChar c xs
      else
        match splitOnChar c xs with
        | [] => [[x]]
        | g :: gs => (x :: g) :: gs

/-- `data.split("|")` of the dispatcher. -/
def splitPipe (s : String) : List String :=
  (splitOnChar '|' s.data).map String.mk

/-- `data.strip()`: drop leading and trailing whitespace. -/
def strip (s : String) : String :=
  String.mk (((s.data.dropWhile Char.isWhitespace).reverse.dropWhile
    Char.isWhitespace).reverse)

/-- Transport status of `CustomSocket.receive_data`. -/
inductive SockStatus where
  | ok
  | timeout
  | closed
  | error
deriving DecidableEq, Repr

/-- Result of one `receive_data` call (`data` is empty on non-ok
statuses). -/
structure RecvResult where
  status : SockStatus
  data : String
deriving DecidableEq, Repr

/-- Outcome of one loop iteration: the loop breaks, or continues with an
optional dispatcher-level reply sent on the command socket. -/
inductive LoopAct where
  | brk
  | cont (reply : Option String)
deriving DecidableEq, Repr

/-- `TutorialServer.verify_session`: the command's leading token must
resolve to a session and equal the token of this connection. -/
def verify_session (m : SessionManager) (cmd_session_id expected_session_id : String) :
    Bool :=
  (get_session_by_id m cmd_session_id).isSome && cmd_session_id = expected_session_id

/-- The command names `handle_tutor` dispatches on. -/
def knownTutorCommands : List String :=
  ["ASSIGNED_TUTORIALS", "POLL_TUTOR_TUTORIALS", "TUTORIAL_STUDENTS", "START_CHAT",
   "CHECK_CHAT", "CHAT_AUTH", "CHAT_MESSAGE", "LEAVE_CHAT", "END_CHAT", "JOIN_CHAT",
   "GET_ATTENDANCE"]

/-- One iteration of the `handle_tutor` command loop
(`parts = data.strip().split("|")`, `cmd_session_id = parts[0]`,
`command = parts[1]`). -/
def tutor_loop_step (m : SessionManager) (expected_session_id : String)
    (r : RecvResult) (handler_exc : Option String) : LoopAct :=
  match r.status with
  | SockStatus.ok =>
      if r.data = "" then LoopAct.brk
      else if (splitPipe (strip r.data)).length < 2 then LoopAct.cont none
      else if verify_session m ((splitPipe (strip r.data)).headD "")
          expected_session_id = false then
        LoopAct.cont (some "FAIL:Invalid session")
      else if ((splitPipe (strip r.data)).drop 1).headD "" ∈ knownTutorCommands then
        match handler_exc with
        | some detail => LoopAct.cont (some ("FAIL:Internal error: " ++ detail))
        | none => LoopAct.cont none
      else LoopAct.cont (some "FAIL:Unknown command")
  | _ => LoopAct.brk

/-! ## Association-list lemmas -/

theorem alookup_ainsert_self {α β : Type} [DecidableEq α]
    (l : List (α × β)) (k : α) (v : β) : alookup (ainsert l k v) k = some v := by
  induction l with
  | nil => simp [ainsert, alookup]
  | cons p rest ih =>
      by_cases h : p.1 = k
      · simp [ainsert, alookup, h]
      · simp [ainsert, alookup, h, ih]

theorem alookup_ainsert_ne {α β : Type} [DecidableEq α]
    (l : List (α × β)) (k k' : α) (v : β) (h : k ≠ k') :
    alookup (ainsert l k v) k' = alookup l k' := by
  induction l with
  | nil => simp [ainsert, alookup, h]
  | cons p rest ih =>
      obtain ⟨a, b⟩ := p
      by_cases hp : a = k
      · subst hp
        simp [ainsert, alookup, h, Ne.symm h]
      · by_cases hp' : a = k'
        · subst hp'
          simp [ainsert, alookup, Ne.symm h]
        · simp [ainsert, alookup, hp, hp', ih]

theorem alookup_aupdate_self {α β : Type} [DecidableEq α]
    (l : List (α × β)) (k : α) (f : β → β) :
    alookup (aupdate l k f) k = (alookup l k).map f := by
  induction l with
  | nil => simp [aupdate, alookup]
  | cons p rest ih =>
      obtain ⟨a, b⟩ := p
      by_cases h : a = k
      · simp [aupdate, alookup, h]
      · simp [aupdate, alookup, h, ih]

theorem alookup_aupdate_ne {α β : Type} [DecidableEq α]
    (l : List (α × β)) (k k' : α) (f : β → β) (h : k ≠ k') :
    alookup (aupdate l k f) k' = alookup l k' := by
  induction l with
  | nil => simp [aupdate, alookup]
  | cons p rest ih =>
      obtain ⟨a, b⟩ := p
      by_cases hp : a = k
      · subst hp
        simp [aupdate, alookup, h, ih]
      · by_cases hp' : a = k'
        · subst hp'
          simp [aupdate, alookup, Ne.symm h]
        · simp [aupdate, alookup, hp, hp', ih]

theorem ainsert_ainsert_self {α β : Type} [DecidableEq α]
    (l : List (α × β)) (k : α) (v w : β) :
    ainsert (ainsert l k v) k w = ainsert l k w := by
  induction l with
  | nil => simp [ainsert]
  | cons p rest ih =>
      obtain ⟨a, b⟩ := p
      by_cases h : a = k
      · simp [ainsert, h]
      · simp [ainsert, h, ih]

theorem alookup_append {α β : Type} [DecidableEq α]
    (l1 l2 : List (α × β)) (k : α) :
    alookup (l1 ++ l2) k =
      (match alookup l1 k with
       | some v => some v
       | none => alookup l2 k) := by
  induction l1 with
  | nil => simp [alookup]
  | cons p rest ih =>
      obtain ⟨a, b⟩ := p
      by_cases h : a = k
      · simp [alookup, h]
      · simp [alookup, h, ih]

/-! ## Log-observer lemmas -/

theorem attemptsOn_nil (slot : Bool) : attemptsOn slot [] = [] := rfl

theorem attemptsOn_send (slot b : Bool) (s : Nat) (ok : Bool) (l : List Ev) :
    attemptsOn slot (Ev.send b s ok :: l) =
      if b = slot then s :: attemptsOn slot l else attemptsOn slot l := by
  by_cases h : b = slot <;> simp [attemptsOn, h]

theorem attemptsOn_detach (slot : Bool) (s : Nat) (l : List Ev) :
    attemptsOn slot (Ev.detach s :: l) = attemptsOn slot l := by
  simp [attemptsOn]

theorem detachedSockets_nil : detachedSockets [] = [] := rfl

theorem detachedSockets_send (b : Bool) (s : Nat) (ok : Bool) (l : List Ev) :
    detachedSockets (Ev.send b s ok :: l) = detachedSockets l := by
  simp [detachedSockets]

theorem detachedSockets_detach (s : Nat) (l : List Ev) :
    detachedSockets (Ev.detach s :: l) = s :: detachedSockets l := by
  simp [detachedSockets]

theorem deliveredSockets_nil : deliveredSockets [] = [] := rfl

theorem deliveredSockets_send (b : Bool) (s : Nat) (ok : Bool) (l : List Ev) :
    deliveredSockets (Ev.send b s ok :: l) =
      if ok then s :: deliveredSockets l else deliveredSockets l := by
  cases ok <;> simp [deliveredSockets]

theorem deliveredSockets_detach (s : Nat) (l : List Ev) :
    deliveredSockets (Ev.detach s :: l) = deliveredSockets l := by
  simp [deliveredSockets]

/-- Log shape of the chat-socket phase: every socket of the snapshot is
attempted in order, failures are detached, successes are counted. -/
theorem chatPhase_log (tid : String) (sendOk : Nat → Bool) :
    ∀ (l : List Nat) (rooms : Rooms),
      attemptsOn true (chatPhase rooms tid sendOk l).2.1 = l ∧
      attemptsOn false (chatPhase rooms tid sendOk l).2.1 = [] ∧
      detachedSockets (chatPhase rooms tid sendOk l).2.1 =
        l.filter (fun s => ¬ sendOk s) ∧
      deliveredSockets (chatPhase rooms tid sendOk l).2.1 =
        l.filter (fun s => sendOk s) ∧
      (chatPhase rooms tid sendOk l).2.2 = l.countP (fun s => sendOk s) := by
  intro l
  induction l with
  | nil =>
      intro rooms
      simp [chatPhase, attemptsOn_nil, detachedSockets_nil, deliveredSockets_nil]
  | cons s rest ih =>
      intro rooms
      by_cases hs : sendOk s
      · obtain ⟨h1, h2, h3, h4, h5⟩ := ih rooms
        simp [chatPhase, hs, attemptsOn_send, attemptsOn_detach,
          detachedSockets_send, detachedSockets_detach, deliveredSockets_send,
          deliveredSockets_detach, List.countP_cons, h1, h2, h3, h4, h5]
      · obtain ⟨h1, h2, h3, h4, h5⟩ := ih (remove_dead_socket rooms tid s)
        simp [chatPhase, hs, attemptsOn_send, attemptsOn_detach,
          detachedSockets_send, detachedSockets_detach, deliveredSockets_send,
          deliveredSockets_detach, List.countP_cons, h1, h2, h3, h4, h5]

theorem attemptsOn_true_primLog (sendOk : Nat → Bool) (ps : List Nat) :
    attemptsOn true (ps.map (fun s => Ev.send false s (sendOk s))) = [] := by
  induction ps with
  | nil => simp [attemptsOn_nil]
  | cons s rest ih => simp [attemptsOn_send, ih]

theorem attemptsOn_false_primLog (sendOk : Nat → Bool) (ps : List Nat) :
    attemptsOn false (ps.map (fun s => Ev.send false s (sendOk s))) = ps := by
  induction ps with
  | nil => simp [attemptsOn_nil]
  | cons s rest ih => simp [attemptsOn_send, ih]

theorem detached_primLog (sendOk : Nat → Bool) (ps : List Nat) :
    detachedSockets (ps.map (fun s => Ev.send false s (sendOk s))) = [] := by
  induction ps with
  | nil => simp [detachedSockets_nil]
  | cons s rest ih => simp [detachedSockets_send, ih]

theorem delivered_primLog (sendOk : Nat → Bool) (ps : List Nat) :
    deliveredSockets (ps.map (fun s => Ev.send false s (sendOk s))) =
      ps.filter (fun s => sendOk s) := by
  induction ps with
  | nil => simp [deliveredSockets_nil]
  | cons s rest ih =>
      by_cases hs : sendOk s <;> simp [deliveredSockets_send, hs, ih]

theorem attemptsOn_append (slot : Bool) (l1 l2 : List Ev) :
    attemptsOn slot (l1 ++ l2) = attemptsOn slot l1 ++ attemptsOn slot l2 := by
  simp [attemptsOn, List.filterMap_append]

theorem detachedSockets_append (l1 l2 : List Ev) :
    detachedSockets (l1 ++ l2) = detachedSockets l1 ++ detachedSockets l2 := by
  simp [detachedSockets, List.filterMap_append]

theorem deliveredSockets_append (l1 l2 : List Ev) :
    deliveredSockets (l1 ++ l2) = deliveredSockets l1 ++ deliveredSockets l2 := by
  simp [deliveredSockets, List.filterMap_append]

/-- Single-transition monotonicity of the stored attendance duration. -/
theorem attStep_duration_mono (db : DB) (cs st : String) (ev : AttEv)
    (h : attPre db cs st ev = true) :
    storedDuration db cs st ≤ storedDuration (attStep db cs st ev) cs st := by
  cases ev with
  | join tid now =>
      cases hlk : alookup db.attendance (cs, st) with
      | none =>
          simp [attStep, mark_student_present, hlk, storedDuration, alookup_append,
            alookup]
      | some r =>
          by_cases hp : r.is_present = true
          · simp [attStep, mark_student_present, hlk, hp, storedDuration]
          · by_cases hfj : r.first_join_time = 0
            · simp [attStep, mark_student_present, hlk, hp, hfj, storedDuration,
                alookup_aupdate_self]
            · simp [attStep, mark_student_present, hlk, hp, hfj, storedDuration,
                alookup_aupdate_self]
  | leave now =>
      cases hlk : alookup db.attendance (cs, st) with
      | none => simp [attStep, disconnect_attendance, hlk, storedDuration]
      | some r =>
          by_cases hp : r.is_present = true
          · have hle : r.last_seen_time ≤ now := by
              simpa [attPre, hlk, AttEv.time] using h
            simp [attStep, disconnect_attendance, hlk, hp, storedDuration,
              alookup_aupdate_self]
            omega
          · simp [attStep, disconnect_attendance, hlk, hp, storedDuration]

/-! ## Claim theorems -/

/-- C1 (counterexample): `SessionManager.create_session` called again for
a user who already has a live session does not fail and does not leave
the registry unchanged: it overwrites the user's entry and mutates all
three indices. -/
theorem create_session_second_login_not_rejected :
    (create_session (create_session SessionManager.empty "u1" "student" "Alice"
      (some 1) "s1").1 "u1" "student" "Alice" (some 2) "s2").1 ≠
    (create_session SessionManager.empty "u1" "student" "Alice" (some 1) "s1").1 := by
  decide

/-- C1 (amended): the at-most-one-session guarantee is enforced by the
server's credential-auth handler, not by `create_session` itself: when
`user_has_active_session` holds, the login is rejected with
`FAIL:Already logged in` and the registry is left unchanged, so
`create_session` is never reached on this path. -/
theorem credential_auth_rejects_active_user
    (m : SessionManager) (uid role name pic : String) (sock : Nat) (sid : String)
    (h : user_has_active_session m uid = true) :
    credential_auth m uid role name pic sock sid = (m, "FAIL:Already logged in") := by
  simp [credential_auth, h]

/-- C1 (witness): a concrete registry holding a session for `u1` rejects
a second credential login for `u1` unchanged. -/
theorem credential_auth_rejects_active_user_witness :
    user_has_active_session (create_session SessionManager.empty "u1" "student"
      "Alice" (some 1) "s1").1 "u1" = true ∧
    credential_auth (create_session SessionManager.empty "u1" "student" "Alice"
      (some 1) "s1").1 "u1" "student" "Alice" "pic" 2 "s2" =
      ((create_session SessionManager.empty "u1" "student" "Alice" (some 1) "s1").1,
       "FAIL:Already logged in") :=
  ⟨by decide, credential_auth_rejects_active_user _ "u1" "student" "Alice" "pic" 2 "s2"
    (by decide)⟩

/-- C2: when a chat is already active for the tutorial,
`_handle_start_chat` replies `FAIL:Chat session already active` and
applies no state change: the database and rooms are untouched and no
timer thread is started. -/
theorem start_chat_rejects_active
    (st : ServerState) (tid tutor : String) (dur now : Int) (sid : String) (sock : Nat)
    (h : (get_active_chat st.db tid).isSome = true) :
    handle_start_chat st tid tutor dur now sid sock =
      (st, "FAIL:Chat session already active", false) := by
  simp [handle_start_chat, start_chat, h]

/-- C2 (witness): a concrete state with an active chat for `T1` is left
unchanged by a second START_CHAT. -/
theorem start_chat_rejects_active_witness :
    (get_active_chat
        ({ active_chats :=
             [("T1",
               { tutor_id := "t1", start_time := 0, end_time := 600,
                 chat_session_id := "cs1" })],
           attendance := [], assignments := [], user_roles := [] } : DB)
        "T1").isSome = true ∧
    handle_start_chat
        { db :=
            { active_chats :=
                [("T1",
                  { tutor_id := "t1", start_time := 0, end_time := 600,
                    chat_session_id := "cs1" })],
              attendance := [], assignments := [], user_roles := [] },
          rooms := [] }
        "T1" "t2" 10 100 "cs2" 7 =
      ({ db :=
           { active_chats :=
               [("T1",
                 { tutor_id := "t1", start_time := 0, end_time := 600,
                   chat_session_id := "cs1" })],
             attendance := [], assignments := [], user_roles := [] },
         rooms := [] },
       "FAIL:Chat session already active", false) :=
  ⟨by decide, start_chat_rejects_active _ "T1" "t2" 10 100 "cs2" 7 (by decide)⟩

/-- C3: over any sequence of join/leave transitions whose wall-clock
times do not run backwards relative to the stored `last_seen_time`, the
stored `total_duration_seconds` of a (chat_session_id, student_id) pair
is monotonically non-decreasing. -/
theorem accumulated_duration_mono (cs st : String) (evs : List AttEv) :
    ∀ db : DB, validTrace db cs st evs = true →
    storedDuration db cs st ≤ storedDuration (attRun db cs st evs) cs st := by
  induction evs with
  | nil =>
      intro db _
      simp [attRun]
  | cons ev rest ih =>
      intro db h
      rw [validTrace, Bool.and_eq_true] at h
      refine le_trans (attStep_duration_mono db cs st ev h.1) ?_
      exact ih _ h.2

/-- C3 (witness): a concrete join/leave/join/leave trace on an empty
database is valid and does not decrease the stored duration. -/
theorem accumulated_duration_mono_witness :
    validTrace
      { active_chats := [], attendance := [], assignments := [],
        user_roles := [] } "cs" "s1"
      [AttEv.join "T1" 10, AttEv.leave 20, AttEv.join "T1" 30, AttEv.leave 45] =
      true ∧
    storedDuration
      { active_chats := [], attendance := [], assignments := [],
        user_roles := [] } "cs" "s1" ≤
      storedDuration
        (attRun
          { active_chats := [], attendance := [], assignments := [],
            user_roles := [] } "cs" "s1"
          [AttEv.join "T1" 10, AttEv.leave 20, AttEv.join "T1" 30, AttEv.leave 45])
        "cs" "s1" :=
  ⟨by decide, accumulated_duration_mono "cs" "s1"
    [AttEv.join "T1" 10, AttEv.leave 20, AttEv.join "T1" 30, AttEv.leave 45]
    _ (by decide)⟩

/-- C4: starting from the initialised (absent, zeroed) attendance row, a
join at `t1 > 0`, a leave at `t2` and a rejoin at `t3` leave the row
present, with `total_duration_seconds` equal to the first visit's
duration `t2 - t1` (not reset) and `first_join_time` still `t1`. -/
theorem rejoin_keeps_accumulated_duration
    (db : DB) (cs tid st : String) (tid0 : String) (t1 t2 t3 : Int)
    (h0 : alookup db.attendance (cs, st) =
      some { tutorial_id := tid0, first_join_time := 0, last_seen_time := 0,
             total_duration_seconds := 0, is_present := false })
    (ht1 : 0 < t1) :
    alookup (mark_student_present (disconnect_attendance
        (mark_student_present db cs tid st t1) cs st t2) cs tid st t3).attendance
      (cs, st) =
    some { tutorial_id := tid0, first_join_time := t1, last_seen_time := t3,
           total_duration_seconds := t2 - t1, is_present := true } := by
  have ht1' : ¬ t1 = 0 := by omega
  have l1 : alookup (mark_student_present db cs tid st t1).attendance (cs, st) =
      some { tutorial_id := tid0, first_join_time := t1, last_seen_time := t1,
             total_duration_seconds := 0, is_present := true } := by
    simp [mark_student_present, h0, alookup_aupdate_self]
  generalize hg1 : mark_student_present db cs tid st t1 = db1 at l1 ⊢
  have l2 : alookup (disconnect_attendance db1 cs st t2).attendance (cs, st) =
      some { tutorial_id := tid0, first_join_time := t1, last_seen_time := t2,
             total_duration_seconds := t2 - t1, is_present := false } := by
    simp [disconnect_attendance, l1, alookup_aupdate_self]
  generalize hg2 : disconnect_attendance db1 cs st t2 = db2 at l2 ⊢
  simp [mark_student_present, l2, ht1', alookup_aupdate_self]

/-- C4 (witness): with the initialised row for `("cs", "s1")`, joining
at 10, leaving at 25 and rejoining at 40 yields a present row with
duration 15 and first_join_time 10. -/
theorem rejoin_keeps_accumulated_duration_witness :
    alookup
      ({ active_chats := [],
         attendance :=
           [(("cs", "s1"),
             { tutorial_id := "T1", first_join_time := 0, last_seen_time := 0,
               total_duration_seconds := 0, is_present := false })],
         assignments := [], user_roles := [] } : DB).attendance ("cs", "s1") =
      some { tutorial_id := "T1", first_join_time := 0, last_seen_time := 0,
             total_duration_seconds := 0, is_present := false } ∧
    (0 : Int) < 10 ∧
    alookup (mark_student_present (disconnect_attendance (mark_student_present
      { active_chats := [],
        attendance :=
          [(("cs", "s1"),
            { tutorial_id := "T1", first_join_time := 0, last_seen_time := 0,
              total_duration_seconds := 0, is_present := false })],
        assignments := [], user_roles := [] } "cs" "T1" "s1" 10)
        "cs" "s1" 25) "cs" "T1" "s1" 40).attendance ("cs", "s1") =
      some { tutorial_id := "T1", first_join_time := 10, last_seen_time := 40,
             total_duration_seconds := 25 - 10, is_present := true } :=
  ⟨by decide, by decide,
   rejoin_keeps_accumulated_duration _ "cs" "T1" "s1" "T1" 10 25 40 (by decide)
     (by decide)⟩

/-- C5 (counterexample): in a room where one recipient holds only a
primary socket and another holds both slots, with every send
succeeding, the primary-only recipient receives zero copies of the
broadcast (not exactly one): the chat-slot send succeeds, so the
primary fallback is never exercised. -/
theorem chat_message_primary_only_recipient_missed :
    copiesReceived (broadcast_chat_message
      [("T1", { users := [("t", { primary := some 1, chat := none }),
                          ("u1", { primary := some 2, chat := none }),
                          ("u2", { primary := some 3, chat := some 4 })],
                messages := [] })] "T1" "t" (fun _ => true)).2.1
      { primary := some 2, chat := none } = 0 ∧
    ¬ copiesReceived (broadcast_chat_message
      [("T1", { users := [("t", { primary := some 1, chat := none }),
                          ("u1", { primary := some 2, chat := none }),
                          ("u2", { primary := some 3, chat := some 4 })],
                messages := [] })] "T1" "t" (fun _ => true)).2.1
      { primary := some 2, chat := none } = 1 := by
  decide

/-- C5 (amended): in that configuration, with all sends succeeding, the
whole broadcast is the single successful chat-slot send to the dual-slot
recipient: that recipient receives exactly one copy (no duplicate via
the fallback), while the primary-only recipient receives none because
the fallback is skipped after a chat-slot success. -/
theorem chat_message_two_recipients
    (rooms : Rooms) (tid s u1 u2 : String) (ss : UserSockets)
    (p1 p2 c2 : Nat) (msgs : List String)
    (hr : rooms = [(tid,
      { users := [(s, ss), (u1, { primary := some p1, chat := none }),
                  (u2, { primary := some p2, chat := some c2 })],
        messages := msgs })])
    (hs1 : s ≠ u1) (hs2 : s ≠ u2) (hp1 : p1 ≠ c2) :
    (broadcast_chat_message rooms tid s (fun _ => true)).2.1 =
      [Ev.send true c2 true] ∧
    copiesReceived (broadcast_chat_message rooms tid s (fun _ => true)).2.1
      { primary := some p2, chat := some c2 } = 1 ∧
    copiesReceived (broadcast_chat_message rooms tid s (fun _ => true)).2.1
      { primary := some p1, chat := none } = 0 := by
  subst hr
  have hcs : get_chat_sockets
      [(tid, { users := [(s, ss), (u1, { primary := some p1, chat := none }),
                         (u2, { primary := some p2, chat := some c2 })],
               messages := msgs })] tid (some s) = [c2] := by
    simp [get_chat_sockets, alookup, hs1, hs2]
  have hb : (broadcast_chat_message
      [(tid, { users := [(s, ss), (u1, { primary := some p1, chat := none }),
               (u2, { primary := some p2, chat := some c2 })],
               messages := msgs })] tid s (fun _ => true)).2.1 =
      [Ev.send true c2 true] := by
    simp [broadcast_chat_message, hcs, chatPhase]
  refine ⟨hb, ?_, ?_⟩
  · rw [hb]
    simp [copiesReceived, deliveredSockets]
  · rw [hb]
    simp [copiesReceived, deliveredSockets, hp1]

/-- C5 (witness): concrete instantiation of the two-recipient room. -/
theorem chat_message_two_recipients_witness :
    ("t" : String) ≠ "u1" ∧ ("t" : String) ≠ "u2" ∧ (2 : Nat) ≠ 4 ∧
    copiesReceived (broadcast_chat_message
      [("T1", { users := [("t", { primary := some 9, chat := none }),
                          ("u1", { primary := some 2, chat := none }),
                          ("u2", { primary := some 3, chat := some 4 })],
                messages := [] })] "T1" "t" (fun _ => true)).2.1
      { primary := some 3, chat := some 4 } = 1 :=
  ⟨by decide, by decide, by decide,
   (chat_message_two_recipients _ "T1" "t" "u1" "u2"
     { primary := some 9, chat := none } 2 3 4 [] rfl (by decide) (by decide)
     (by decide)).2.1⟩

/-- C6 (counterexample): when every send fails, the failed chat-slot
socket is detached but a failed primary-fallback send is not: the
fallback loop has no `remove_dead_socket` call. -/
theorem broadcast_failed_primary_send_not_detached :
    Ev.send false 2 false ∈ (broadcast_chat_message
      [("T1", { users := [("t", { primary := some 1, chat := none }),
                          ("u1", { primary := some 2, chat := some 3 }),
                          ("u2", { primary := some 4, chat := none })],
                messages := [] })] "T1" "t" (fun _ => false)).2.1 ∧
    2 ∉ detachedSockets (broadcast_chat_message
      [("T1", { users := [("t", { primary := some 1, chat := none }),
                          ("u1", { primary := some 2, chat := some 3 }),
                          ("u2", { primary := some 4, chat := none })],
                messages := [] })] "T1" "t" (fun _ => false)).2.1 := by
  decide

/-- C6 (amended): `_broadcast_chat_message` attempts every live
chat-slot socket of the room excluding the sender; it retries on
primary slots exactly when zero chat-slot sends succeeded; the sockets
passed to `remove_dead_socket` are exactly the failed chat-slot sends
(primary-fallback failures are not detached); and the return value is
true iff at least one send succeeded. -/
theorem broadcast_chat_message_spec (rooms : Rooms) (tid sender : String)
    (sendOk : Nat → Bool) :
    attemptsOn true (broadcast_chat_message rooms tid sender sendOk).2.1 =
      get_chat_sockets rooms tid (some sender) ∧
    detachedSockets (broadcast_chat_message rooms tid sender sendOk).2.1 =
      (get_chat_sockets rooms tid (some sender)).filter (fun s => ¬ sendOk s) ∧
    attemptsOn false (broadcast_chat_message rooms tid sender sendOk).2.1 =
      (if (get_chat_sockets rooms tid (some sender)).countP (fun s => sendOk s) = 0
       then get_primary_sockets (broadcast_chat_message rooms tid sender sendOk).1
         tid (some sender)
       else []) ∧
    ((broadcast_chat_message rooms tid sender sendOk).2.2 = true ↔
      deliveredSockets (broadcast_chat_message rooms tid sender sendOk).2.1 ≠ []) := by
  obtain ⟨h1, h2, h3, h4, h5⟩ :=
    chatPhase_log tid sendOk (get_chat_sockets rooms tid (some sender)) rooms
  by_cases hn : (chatPhase rooms tid sendOk
      (get_chat_sockets rooms tid (some sender))).2.2 = 0
  · have hcount : (get_chat_sockets rooms tid (some sender)).countP
        (fun s => sendOk s) = 0 := by rw [← h5]; exact hn
    have hdel : deliveredSockets (chatPhase rooms tid sendOk
        (get_chat_sockets rooms tid (some sender))).2.1 = [] := by
      rw [h4]
      rw [List.countP_eq_length_filter] at hcount
      exact List.length_eq_zero.mp hcount
    have hppos : ∀ ps : List Nat,
        (0 < ps.countP (fun s => sendOk s)) ↔
          ps.filter (fun s => sendOk s) ≠ [] := by
      intro ps
      rw [List.countP_eq_length_filter]
      exact List.length_pos
    refine ⟨?_, ?_, ?_, ?_⟩
    · simp [broadcast_chat_message, hn, attemptsOn_append, h1,
        attemptsOn_true_primLog]
    · simp [broadcast_chat_message, hn, detachedSockets_append, h2, h3,
        detached_primLog]
    · simp [broadcast_chat_message, hn, hcount, attemptsOn_append, h2,
        attemptsOn_false_primLog]
    · simp only [broadcast_chat_message, hn, if_true, if_pos]
      rw [deliveredSockets_append, hdel, delivered_primLog]
      simp only [List.nil_append, Nat.zero_add, decide_eq_true_eq]
      exact hppos _
  · have hcount : ¬ (get_chat_sockets rooms tid (some sender)).countP
        (fun s => sendOk s) = 0 := by rw [← h5]; exact hn
    have hdel : deliveredSockets (chatPhase rooms tid sendOk
        (get_chat_sockets rooms tid (some sender))).2.1 ≠ [] := by
      rw [h4]
      intro hemp
      apply hcount
      rw [List.countP_eq_length_filter, hemp]
      rfl
    refine ⟨?_, ?_, ?_, ?_⟩
    · simp [broadcast_chat_message, hn, h1]
    · simp [broadcast_chat_message, hn, h2, h3]
    · simp [broadcast_chat_message, hn, hcount, h2]
    · simp [broadcast_chat_message, hn, hdel]

/-- C7 (counterexample): attaching a socket for a user and then
detaching it via `remove_dead_socket` does not remove the user's entry:
the entry survives with both slots null and `is_active` still reports
true for a room whose only user that was. -/
theorem remove_dead_socket_keeps_user_entry :
    is_active (remove_dead_socket (add_socket ([] : Rooms) "T1" "u1" 5 false)
      "T1" 5) "T1" = true ∧
    (alookup (remove_dead_socket (add_socket ([] : Rooms) "T1" "u1" 5 false)
      "T1" 5) "T1").map (fun room => alookup room.users "u1") =
      some (some { primary := none, chat := none }) := by
  decide

/-- C7 (amended): nulling the last slot via `remove_dead_socket` keeps
the user's entry (with both slots empty) and the room still reports
active; only `remove_user` deletes the entry, after which the room (for
that user) is back to the never-attached state and `is_active` reports
false when that user was the only one. -/
theorem detach_keeps_entry_remove_user_clears
    (rooms : Rooms) (tid uid : String) (sock : Nat) (slot : Bool)
    (hfresh : alookup rooms tid = none) :
    ((alookup (remove_dead_socket (add_socket rooms tid uid sock slot) tid sock)
        tid).map (fun room => alookup room.users uid) =
      some (some { primary := none, chat := none }) ∧
     is_active (remove_dead_socket (add_socket rooms tid uid sock slot) tid sock)
        tid = true) ∧
    ((alookup ((remove_user
        (remove_dead_socket (add_socket rooms tid uid sock slot) tid sock)
        tid uid).1) tid).map (fun room => alookup room.users uid) = some none ∧
     is_active ((remove_user
        (remove_dead_socket (add_socket rooms tid uid sock slot) tid sock)
        tid uid).1) tid = false) := by
  have h1 : add_socket rooms tid uid sock slot =
      ainsert rooms tid
        { users := [(uid, if slot then { primary := none, chat := some sock }
            else { primary := some sock, chat := none })], messages := [] } := by
    cases slot <;> simp [add_socket, hfresh, Room.empty, ainsert, alookup]
  have h2 : remove_dead_socket (add_socket rooms tid uid sock slot) tid sock =
      ainsert rooms tid
        { users := [(uid, { primary := none, chat := none })], messages := [] } := by
    rw [h1]
    cases slot <;>
      simp [remove_dead_socket, alookup_ainsert_self, ainsert_ainsert_self]
  rw [h2]
  have h3 : (remove_user (ainsert rooms tid
      { users := [(uid, { primary := none, chat := none })], messages := [] })
      tid uid).1 =
      ainsert rooms tid { users := [], messages := [] } := by
    simp [remove_user, alookup_ainsert_self, alookup, aerase, ainsert_ainsert_self]
  rw [h3]
  refine ⟨⟨?_, ?_⟩, ?_, ?_⟩
  · rw [alookup_ainsert_self]
    simp [alookup]
  · simp [is_active, alookup_ainsert_self]
  · rw [alookup_ainsert_self]
    simp [alookup]
  · simp [is_active, alookup_ainsert_self]

/-- C7 (witness): concrete round trip in an empty directory. -/
theorem detach_keeps_entry_remove_user_clears_witness :
    alookup ([] : Rooms) "T1" = none ∧
    is_active ((remove_user
      (remove_dead_socket (add_socket ([] : Rooms) "T1" "u1" 5 false) "T1" 5)
      "T1" "u1").1) "T1" = false :=
  ⟨rfl, (detach_keeps_entry_remove_user_clears [] "T1" "u1" 5 false rfl).2.2⟩

/-- C8: for a duration above five minutes, the timer broadcasts the
warning iff the chat is still active at the warning wake point, and
performs the end sequence (delete the active chat, broadcast
CHAT_ENDED, close the room) iff the chat was still active at both wake
points; if the chat was ended before the first wake point the timer
does nothing at all. -/
theorem chat_session_timer_gating (d : Int) (aw ae : Bool) (h : 5 < d) :
    (TimerAct.warnBroadcast ∈ chat_session_timer d aw ae ↔ aw = true) ∧
    (TimerAct.chatEndedBroadcast ∈ chat_session_timer d aw ae ↔
      (aw = true ∧ ae = true)) ∧
    (TimerAct.endChatDb ∈ chat_session_timer d aw ae ↔ (aw = true ∧ ae = true)) ∧
    (TimerAct.closeRoomAct ∈ chat_session_timer d aw ae ↔
      (aw = true ∧ ae = true)) ∧
    (aw = false → chat_session_timer d aw ae = []) := by
  have hd : d - 5 > 0 := by omega
  cases aw <;> cases ae <;> simp [chat_session_timer, hd]

/-- C8 (witness): a ten-minute timer whose chat was ended manually
before the warning point does nothing. -/
theorem chat_session_timer_gating_witness :
    (5 : Int) < 10 ∧
    (TimerAct.warnBroadcast ∈ chat_session_timer 10 false true ↔ false = true) ∧
    chat_session_timer 10 false true = [] :=
  ⟨by decide, (chat_session_timer_gating 10 false true (by decide)).1,
   (chat_session_timer_gating 10 false true (by decide)).2.2.2.2 rfl⟩

/-- C9 (counterexample): the command loop also terminates on a TIMEOUT
transport status, not only on close/error: any non-ok receive status
breaks the loop. -/
theorem tutor_loop_breaks_on_timeout :
    tutor_loop_step SessionManager.empty "tok"
      { status := SockStatus.timeout, data := "" } none = LoopAct.brk ∧
    SockStatus.timeout ≠ SockStatus.closed ∧
    SockStatus.timeout ≠ SockStatus.error := by
  refine ⟨rfl, by decide, by decide⟩

/-- C9 (amended): one iteration of the tutor command loop breaks iff
the receive status is not ok (timeout, closed or error) or the data is
empty; on an ok receive of a well-formed command, a session-token
mismatch is answered with `FAIL:Invalid session`, an unknown command
with `FAIL:Unknown command`, and a handler exception with
`FAIL:Internal error: <detail>`, the loop continuing in each case. -/
theorem tutor_loop_step_spec (m : SessionManager) (exp : String) (r : RecvResult)
    (exc : Option String) :
    (tutor_loop_step m exp r exc = LoopAct.brk ↔
      (¬ r.status = SockStatus.ok ∨ r.data = "")) ∧
    (r.status = SockStatus.ok → ¬ r.data = "" →
      (2 ≤ (splitPipe (strip r.data)).length →
        (verify_session m ((splitPipe (strip r.data)).head?.getD "") exp = false →
          tutor_loop_step m exp r exc = LoopAct.cont (some "FAIL:Invalid session")) ∧
        (verify_session m ((splitPipe (strip r.data)).head?.getD "") exp = true →
          ((splitPipe (strip r.data))[1]?.getD "" ∉ knownTutorCommands →
            tutor_loop_step m exp r exc = LoopAct.cont (some "FAIL:Unknown command")) ∧
          (∀ detail, exc = some detail →
            (splitPipe (strip r.data))[1]?.getD "" ∈ knownTutorCommands →
            tutor_loop_step m exp r exc =
              LoopAct.cont (some ("FAIL:Internal error: " ++ detail)))))) := by
  rcases r with ⟨st, data⟩
  dsimp only
  cases st with
  | ok =>
      by_cases hdata : data = ""
      · subst hdata
        simp [tutor_loop_step]
      · by_cases hlen : (splitPipe (strip data)).length < 2
        · constructor
          · simp [tutor_loop_step, hdata, hlen]
          · intro _ _ h2
            omega
        · by_cases hv : verify_session m ((splitPipe (strip data)).head?.getD "")
              exp = false
          · constructor
            · simp [tutor_loop_step, hdata, hlen, hv]
            · intro _ _ _
              refine ⟨fun _ => by simp [tutor_loop_step, hdata, hlen, hv],
                fun hvt => ?_⟩
              rw [hvt] at hv
              simp at hv
          · have hv' : verify_session m ((splitPipe (strip data)).head?.getD "")
                exp = true := by simpa using hv
            by_cases hc : (splitPipe (strip data))[1]?.getD "" ∈ knownTutorCommands
            · constructor
              · cases exc <;> simp [tutor_loop_step, hdata, hlen, hv, hc]
              · intro _ _ _
                refine ⟨fun hvf => absurd hvf hv, fun _ => ⟨fun hc' => absurd hc hc',
                  ?_⟩⟩
                intro detail hdet _
                subst hdet
                simp [tutor_loop_step, hdata, hlen, hv, hc]
            · constructor
              · cases exc <;> simp [tutor_loop_step, hdata, hlen, hv, hc]
              · intro _ _ _
                refine ⟨fun hvf => absurd hvf hv, fun _ => ⟨fun _ => ?_, ?_⟩⟩
                · simp [tutor_loop_step, hdata, hlen, hv, hc]
                · intro detail hdet hc'
                  exact absurd hc' hc
  | timeout => simp [tutor_loop_step]
  | closed => simp [tutor_loop_step]
  | error => simp [tutor_loop_step]

/-- C9 (witness): a command carrying the wrong leading token on a live
registry is answered with the invalid-session failure and the loop
continues. -/
theorem tutor_loop_step_spec_witness :
    verify_session (create_session SessionManager.empty "u1" "tutor" "Bob"
      (some 1) "sidA").1
      ((splitPipe (strip "wrong|START_CHAT|T1|10")).head?.getD "") "sidA" = false ∧
    tutor_loop_step (create_session SessionManager.empty "u1" "tutor" "Bob"
      (some 1) "sidA").1 "sidA"
      { status := SockStatus.ok, data := "wrong|START_CHAT|T1|10" } none =
      LoopAct.cont (some "FAIL:Invalid session") :=
  ⟨by decide,
   ((tutor_loop_step_spec (create_session SessionManager.empty "u1" "tutor" "Bob"
       (some 1) "sidA").1 "sidA"
       { status := SockStatus.ok, data := "wrong|START_CHAT|T1|10" } none).2
     (by decide) (by decide) (by decide)).1 (by decide)⟩

/-- C10: after a second `create_session` for the same user, the first
session's token is still present in the token index and
`get_session_by_id` on the old token returns the newly created session:
old tokens alias the user's latest session. -/
theorem create_session_second_aliases_latest
    (m : SessionManager) (uid role1 name1 role2 name2 : String)
    (sock1 sock2 : Option Nat) (sid1 sid2 : String) (h : sid1 ≠ sid2) :
    alookup (create_session (create_session m uid role1 name1 sock1 sid1).1
      uid role2 name2 sock2 sid2).1.session_lookup sid1 = some uid ∧
    get_session_by_id (create_session (create_session m uid role1 name1 sock1 sid1).1
      uid role2 name2 sock2 sid2).1 sid1 =
      some (create_session (create_session m uid role1 name1 sock1 sid1).1
        uid role2 name2 sock2 sid2).2 := by
  have hl : alookup (create_session (create_session m uid role1 name1 sock1 sid1).1
      uid role2 name2 sock2 sid2).1.session_lookup sid1 = some uid := by
    simp only [create_session]
    rw [alookup_ainsert_ne _ _ _ _ (Ne.symm h), alookup_ainsert_self]
  refine ⟨hl, ?_⟩
  rw [get_session_by_id, hl]
  simp only [create_session]
  rw [alookup_ainsert_self]

/-- C10 (witness): concrete double login for `u1` with distinct fresh
tokens. -/
theorem create_session_second_aliases_latest_witness :
    ("s1" : String) ≠ "s2" ∧
    (alookup (create_session (create_session SessionManager.empty "u1" "student"
      "Alice" (some 1) "s1").1 "u1" "student" "Alice" (some 2) "s2").1.session_lookup
      "s1" = some "u1" ∧
    get_session_by_id (create_session (create_session SessionManager.empty "u1"
      "student" "Alice" (some 1) "s1").1 "u1" "student" "Alice" (some 2) "s2").1
      "s1" =
      some (create_session (create_session SessionManager.empty "u1" "student"
        "Alice" (some 1) "s1").1 "u1" "student" "Alice" (some 2) "s2").2) :=
  ⟨by decide, create_session_second_aliases_latest SessionManager.empty "u1"
    "student" "Alice" "student" "Alice" (some 1) (some 2) "s1" "s2" (by decide)⟩
